import Mathlib

/-!
Verification of the reseeding RNG adapter (`src/rngs/adapter/reseeding.rs`).

The Rust code wraps a block PRNG (`R : BlockRngCore + SeedableRng`) together
with a reseed source (`Rsdr : RngCore`) in a `ReseedingCore` that decides, on
each block-generation call, whether to derive a fresh inner generator first.
We embed `ReseedingCore` and its operations (`new`, `generate`,
`reseed`, `reseed_and_generate`, `is_forked`, `clone`) as pure Lean
functions; the external generator/seeding capabilities are a parameter
(`GenCore`), and the process-wide fork counter is passed in explicitly as the
value the atomic load at the top of `generate` would return.

Machine integers: `threshold` and `bytes_until_reseed` are Rust `i64`, modelled
as `Int` (no overflow occurs in any reachable computation modelled here:
values stay within `[threshold - blockBytes, i64::MAX]`); `fork_counter` and
the global fork counter are Rust `usize`, whose wrapping subtraction and
signed reinterpretation in `is_forked` are modelled explicitly modulo `2^64`.
-/

set_option maxRecDepth 8000

/-- Modulus of the Rust `usize` type on a 64-bit target. -/
def usizeMod : Nat := 2 ^ 64

/-- Rust `i64::MAX`. -/
def i64Max : Int := 2 ^ 63 - 1

/-- The single error kind: the reseed source could not supply enough material
(Rust `rand_core::Error` as produced by `R::from_rng`). -/
structure SeedingFailure where
  code : Nat
  deriving DecidableEq

/-- Equality of `Except` values is decidable (needed to evaluate the model on
concrete inputs). -/
instance exceptDecidableEq {ε α : Type} [DecidableEq ε] [DecidableEq α] :
    DecidableEq (Except ε α) := fun x y =>
  match x, y with
  | Except.ok a, Except.ok b => decidable_of_iff (a = b) (by simp)
  | Except.ok _, Except.error _ => isFalse (fun hx => by cases hx)
  | Except.error _, Except.ok _ => isFalse (fun hx => by cases hx)
  | Except.error a, Except.error b => decidable_of_iff (a = b) (by simp)

/-- Model of the external capabilities the adapter consumes, for one choice of
inner-generator state type `R`, reseed-source state type `Rsdr` and block type
`Block`:
* `generate` is `R::generate` of `BlockRngCore`: fills one block from the
  inner state (pure: returns the block and the advanced state);
* `from_rng` is `R::from_rng(&mut reseeder)` of `SeedableRng`: derives a fresh
  inner generator from the reseed source; it may fail, and it advances (or
  not) the reseed source state in either case, hence the returned `Rsdr`;
* `blockBytes` is `results.as_ref().len() * size_of::<Item>()`, the number of
  bytes one block holds — a constant of the `Results` type. -/
structure GenCore (R Rsdr Block : Type) where
  generate : R → Block × R
  from_rng : Rsdr → Except SeedingFailure R × Rsdr
  blockBytes : Nat

/-- The state of Rust `ReseedingCore<R, Rsdr>` (fields as in the source). -/
structure ReseedingCore (R Rsdr : Type) where
  inner : R
  reseeder : Rsdr
  threshold : Int
  bytes_until_reseed : Int
  fork_counter : Nat
  deriving DecidableEq

/-- Rust `ReseedingCore::is_forked`:
`(self.fork_counter.wrapping_sub(global_fork_counter) as isize) < 0`.
The wrapped difference, reinterpreted as a signed 64-bit value, is negative
exactly when it lies in `[2^63, 2^64)`. -/
def ReseedingCore.is_forked {R Rsdr : Type} (s : ReseedingCore R Rsdr)
    (global_fork_counter : Nat) : Bool :=
  decide (usizeMod / 2 ≤
    (s.fork_counter % usizeMod + usizeMod - global_fork_counter % usizeMod) % usizeMod)

/-- The guard of the slow branch in Rust `ReseedingCore::generate`:
`self.bytes_until_reseed <= 0 || self.is_forked(global_fork_counter)`. -/
def ReseedingCore.slowPath {R Rsdr : Type} (s : ReseedingCore R Rsdr)
    (global_fork_counter : Nat) : Bool :=
  decide (s.bytes_until_reseed ≤ 0) || s.is_forked global_fork_counter

/-- Rust `ReseedingCore::reseed`:
`R::from_rng(&mut self.reseeder).map(|result| { self.bytes_until_reseed = self.threshold; self.inner = result })`.
On success the inner generator is replaced and the countdown reset to
`threshold`; on failure the error is returned and only the reseed source may
have advanced (it was passed by `&mut` to `from_rng`). -/
def ReseedingCore.reseed {R Rsdr Block : Type} (M : GenCore R Rsdr Block)
    (s : ReseedingCore R Rsdr) :
    Except SeedingFailure Unit × ReseedingCore R Rsdr :=
  match M.from_rng s.reseeder with
  | (Except.ok result, rsdr) =>
      (Except.ok (),
       { s with inner := result, reseeder := rsdr, bytes_until_reseed := s.threshold })
  | (Except.error e, rsdr) =>
      (Except.error e, { s with reseeder := rsdr })

/-- Rust `ReseedingCore::reseed_and_generate` (the slow path): attempt a
reseed, dropping any error (`warn!` only); set
`fork_counter = global_fork_counter` unconditionally; set
`bytes_until_reseed = threshold - num_bytes`; generate the block from
whichever inner generator is now current. -/
def ReseedingCore.reseed_and_generate {R Rsdr Block : Type} (M : GenCore R Rsdr Block)
    (s : ReseedingCore R Rsdr) (global_fork_counter : Nat) :
    Block × ReseedingCore R Rsdr :=
  let num_bytes : Int := M.blockBytes
  let s1 := (ReseedingCore.reseed M s).2
  let s2 := { s1 with fork_counter := global_fork_counter,
                      bytes_until_reseed := s1.threshold - num_bytes }
  let p := M.generate s2.inner
  (p.1, { s2 with inner := p.2 })

/-- Rust `ReseedingCore::generate` (one call of `BlockRngCore::generate`),
with `global_fork_counter` the value `fork::get_fork_counter()` returns at the
top of the call. Slow path if `bytes_until_reseed <= 0` or the cached fork
counter is stale; otherwise subtract the bytes about to be produced and
generate from the current inner generator. -/
def ReseedingCore.generate {R Rsdr Block : Type} (M : GenCore R Rsdr Block)
    (s : ReseedingCore R Rsdr) (global_fork_counter : Nat) :
    Block × ReseedingCore R Rsdr :=
  if s.slowPath global_fork_counter then
    ReseedingCore.reseed_and_generate M s global_fork_counter
  else
    let p := M.generate s.inner
    (p.1, { s with inner := p.2,
                   bytes_until_reseed := s.bytes_until_reseed - (M.blockBytes : Int) })

/-- Rust `ReseedingCore::new`: a `threshold` of 0, and any value above
`i64::MAX`, is clamped to `i64::MAX`; `bytes_until_reseed` starts at the
stored threshold and `fork_counter` at 0. (`fork::register_fork_handler()` has
no per-instance effect and is not modelled.) -/
def ReseedingCore.new {R Rsdr : Type} (rng : R) (threshold : Nat) (reseeder : Rsdr) :
    ReseedingCore R Rsdr :=
  let t : Int :=
    if threshold = 0 then i64Max
    else if (threshold : Int) ≤ i64Max then (threshold : Int)
    else i64Max
  { inner := rng, reseeder := reseeder, threshold := t,
    bytes_until_reseed := t, fork_counter := 0 }

/-- Rust `Clone for ReseedingCore`: all fields are duplicated by value except
`bytes_until_reseed`, which is set to 0 so the clone reseeds on first use. -/
def ReseedingCore.clone {R Rsdr : Type} (s : ReseedingCore R Rsdr) :
    ReseedingCore R Rsdr :=
  { inner := s.inner, reseeder := s.reseeder, threshold := s.threshold,
    bytes_until_reseed := 0, fork_counter := s.fork_counter }

/-- State after `k` successive `generate` calls, all made while the global
fork counter reads `g`. -/
def genState {R Rsdr Block : Type} (M : GenCore R Rsdr Block) (g : Nat)
    (s : ReseedingCore R Rsdr) : Nat → ReseedingCore R Rsdr
  | 0 => s
  | k + 1 => (ReseedingCore.generate M (genState M g s k) g).2

/-- The block produced by the `(k+1)`-st `generate` call (0-indexed `k`),
all calls made while the global fork counter reads `g`. -/
def nthBlock {R Rsdr Block : Type} (M : GenCore R Rsdr Block) (g : Nat)
    (s : ReseedingCore R Rsdr) (k : Nat) : Block :=
  (ReseedingCore.generate M (genState M g s k) g).1

/-- State of the unwrapped inner generator after `k` blocks. -/
def coreState {R Rsdr Block : Type} (M : GenCore R Rsdr Block) (r : R) :
    Nat → R
  | 0 => r
  | k + 1 => (M.generate (coreState M r k)).2

/-- The `(k+1)`-st block of the unwrapped inner generator. -/
def coreNthBlock {R Rsdr Block : Type} (M : GenCore R Rsdr Block) (r : R)
    (k : Nat) : Block :=
  (M.generate (coreState M r k)).1

/-- Bytes produced since the most recent reseed (the most recent slow-path
call; or since construction if none), measured at the start of the
`(k+1)`-st `generate` call of the run `genState M g s`. -/
def bytesSinceReseed {R Rsdr Block : Type} (M : GenCore R Rsdr Block) (g : Nat)
    (s : ReseedingCore R Rsdr) : Nat → Int
  | 0 => 0
  | k + 1 =>
    if (genState M g s k).slowPath g then (M.blockBytes : Int)
    else bytesSinceReseed M g s k + (M.blockBytes : Int)

/-! ### Concrete model instances (used by witnesses and counterexamples)

The inner generator is a counter: state `r : Nat`, block `r`, next state
`r + 1`. Blocks are 4 bytes. The variants differ in `from_rng`. -/

/-- Reseeding succeeds and derives state `100 + rsdr`, advancing the source. -/
def M0 : GenCore Nat Nat Nat :=
  { generate := fun r => (r, r + 1),
    from_rng := fun rsdr => (Except.ok (100 + rsdr), rsdr + 1),
    blockBytes := 4 }

/-- Reseeding always fails (the source still advances, as `&mut` allows). -/
def Mfail : GenCore Nat Nat Nat :=
  { generate := fun r => (r, r + 1),
    from_rng := fun rsdr => (Except.error ⟨0⟩, rsdr + 1),
    blockBytes := 4 }

/-- Reseeding always derives the same state 100 (constant seed material). -/
def Mconst : GenCore Nat Nat Nat :=
  { generate := fun r => (r, r + 1),
    from_rng := fun _rsdr => (Except.ok 100, 0),
    blockBytes := 4 }

/-- Like `Mconst` but with huge blocks of `2^62` bytes each. -/
def Mbig : GenCore Nat Nat Nat :=
  { generate := fun r => (r, r + 1),
    from_rng := fun _rsdr => (Except.ok 100, 0),
    blockBytes := 2 ^ 62 }

/-! ### Helper lemmas (shared across claims) -/

/-- `reseed` never changes `threshold` or `fork_counter` (either branch). -/
theorem reseed_snd_fields {R Rsdr Block : Type} (M : GenCore R Rsdr Block)
    (s : ReseedingCore R Rsdr) :
    ((ReseedingCore.reseed M s).2).threshold = s.threshold ∧
    ((ReseedingCore.reseed M s).2).fork_counter = s.fork_counter := by
  rcases hfr : M.from_rng s.reseeder with ⟨res, rsdr⟩
  cases res <;> simp [ReseedingCore.reseed, hfr]

/-- Field values of the state left by the slow path, whether or not the
embedded reseed attempt succeeded. -/
theorem reseed_and_generate_snd_fields {R Rsdr Block : Type} (M : GenCore R Rsdr Block)
    (s : ReseedingCore R Rsdr) (g : Nat) :
    ((ReseedingCore.reseed_and_generate M s g).2).threshold = s.threshold ∧
    ((ReseedingCore.reseed_and_generate M s g).2).bytes_until_reseed =
      s.threshold - (M.blockBytes : Int) ∧
    ((ReseedingCore.reseed_and_generate M s g).2).fork_counter = g := by
  have h := reseed_snd_fields M s
  simp [ReseedingCore.reseed_and_generate, h.1]

/-- A state whose cached fork counter equals the global one is not stale. -/
theorem is_forked_same {R Rsdr : Type} (s : ReseedingCore R Rsdr) :
    ReseedingCore.is_forked s s.fork_counter = false := by
  simp [ReseedingCore.is_forked, usizeMod]

/-- A state whose cached fork counter equals the observed global value is not
stale (stated with the equality as a hypothesis, for rewriting). -/
theorem is_forked_of_eq {R Rsdr : Type} (s : ReseedingCore R Rsdr) (g : Nat)
    (h : s.fork_counter = g) : ReseedingCore.is_forked s g = false := by
  rw [ReseedingCore.is_forked, h]
  simp [usizeMod]


/-! ### Claim C2 -/

/-- Claim C2: when the reseed attempted on the slow path fails, the failure
does not propagate: the block is still produced by the previous (un-reseeded)
inner generator, `fork_counter` is set to the global counter unconditionally,
and `bytes_until_reseed` is reset to `threshold` minus the bytes produced; the
call returns a block in every case (the return type admits no error). -/
theorem auto_reseed_failure_absorbed {R Rsdr Block : Type} (M : GenCore R Rsdr Block)
    (s : ReseedingCore R Rsdr) (g : Nat) (e : SeedingFailure) (rsdr : Rsdr)
    (h : M.from_rng s.reseeder = (Except.error e, rsdr)) :
    ReseedingCore.reseed_and_generate M s g =
      ((M.generate s.inner).1,
       { inner := (M.generate s.inner).2, reseeder := rsdr, threshold := s.threshold,
         bytes_until_reseed := s.threshold - (M.blockBytes : Int), fork_counter := g }) := by
  simp [ReseedingCore.reseed_and_generate, ReseedingCore.reseed, h]

/-- Witness for C2 at a concrete failing model. -/
theorem auto_reseed_failure_absorbed_witness :
    ReseedingCore.reseed_and_generate Mfail (ReseedingCore.new 0 8 0) 5 =
      ((0 : Nat), { inner := 1, reseeder := 1, threshold := 8,
                    bytes_until_reseed := 4, fork_counter := 5 }) := by
  rw [auto_reseed_failure_absorbed Mfail (ReseedingCore.new 0 8 0) 5 ⟨0⟩ 1 (by decide)]
  decide

/-! ### Claim C3 -/

/-- Claim C3: manual `reseed` derives a brand-new inner generator from the
reseed source; on success it replaces `inner` and resets `bytes_until_reseed`
to exactly `threshold`; on failure it returns the error and mutates none of
`inner`, `bytes_until_reseed`, `fork_counter`, `threshold` (the
`\x7b s with reseeder := rsdr \x7d` form makes every other field explicitly
unchanged; the reseed source itself was passed by `&mut` to `from_rng` and may
have been advanced by the failed draw). -/
theorem manual_reseed_contract {R Rsdr Block : Type} (M : GenCore R Rsdr Block)
    (s : ReseedingCore R Rsdr) :
    (∀ result rsdr, M.from_rng s.reseeder = (Except.ok result, rsdr) →
      ReseedingCore.reseed M s =
        (Except.ok (), { s with inner := result, reseeder := rsdr,
                                bytes_until_reseed := s.threshold })) ∧
    (∀ e rsdr, M.from_rng s.reseeder = (Except.error e, rsdr) →
      ReseedingCore.reseed M s = (Except.error e, { s with reseeder := rsdr })) := by
  constructor
  · intro result rsdr h
    simp [ReseedingCore.reseed, h]
  · intro e rsdr h
    simp [ReseedingCore.reseed, h]

/-- Witness for C3: one succeeding and one failing concrete reseed. -/
theorem manual_reseed_contract_witness :
    ReseedingCore.reseed M0 (ReseedingCore.new 0 8 0) =
      (Except.ok (), { inner := 100, reseeder := 1, threshold := 8,
                       bytes_until_reseed := 8, fork_counter := 0 }) ∧
    ReseedingCore.reseed Mfail (ReseedingCore.new 0 8 0) =
      (Except.error ⟨0⟩, { inner := 0, reseeder := 1, threshold := 8,
                           bytes_until_reseed := 8, fork_counter := 0 }) := by
  constructor
  · rw [(manual_reseed_contract M0 (ReseedingCore.new 0 8 0)).1 100 1 (by decide)]
    decide
  · rw [(manual_reseed_contract Mfail (ReseedingCore.new 0 8 0)).2 ⟨0⟩ 1 (by decide)]
    decide

/-! ### Claim C4 -/

/-- Claim C4: `clone` copies `inner`, `reseeder`, `threshold` and
`fork_counter` by value (the original, a pure value here, is untouched), sets
the clone's `bytes_until_reseed` to 0, and therefore the clone's first
`generate` call takes the slow reseed path whatever the global fork counter
reads and however much countdown the original had left. -/
theorem clone_resets_countdown {R Rsdr Block : Type} (M : GenCore R Rsdr Block)
    (s : ReseedingCore R Rsdr) (g : Nat) :
    s.clone = { inner := s.inner, reseeder := s.reseeder, threshold := s.threshold,
                bytes_until_reseed := 0, fork_counter := s.fork_counter } ∧
    ReseedingCore.slowPath s.clone g = true ∧
    ReseedingCore.generate M s.clone g = ReseedingCore.reseed_and_generate M s.clone g := by
  have hs : ReseedingCore.slowPath s.clone g = true := by
    simp [ReseedingCore.slowPath, ReseedingCore.clone]
  exact ⟨rfl, hs, by simp [ReseedingCore.generate, hs]⟩

/-! ### Claim C7 -/

/-- Claim C7: at construction a `threshold` of 0 becomes the largest
representable countdown `i64::MAX = 2^63 - 1`, a non-zero value above that
maximum is clamped to it, and any other value is stored as-is;
`bytes_until_reseed` starts at the stored threshold; and no operation
(`generate`, `reseed`, `clone`) ever changes `threshold`. -/
theorem new_threshold_clamping {R Rsdr Block : Type} (M : GenCore R Rsdr Block)
    (r : R) (rs : Rsdr) (t : Nat) (s : ReseedingCore R Rsdr) (g : Nat) :
    i64Max = 2 ^ 63 - 1 ∧
    (ReseedingCore.new r t rs).threshold =
      (if t = 0 then i64Max else if (t : Int) ≤ i64Max then (t : Int) else i64Max) ∧
    (ReseedingCore.new r t rs).bytes_until_reseed = (ReseedingCore.new r t rs).threshold ∧
    ((ReseedingCore.generate M s g).2).threshold = s.threshold ∧
    ((ReseedingCore.reseed M s).2).threshold = s.threshold ∧
    (s.clone).threshold = s.threshold := by
  refine ⟨rfl, rfl, rfl, ?_, (reseed_snd_fields M s).1, rfl⟩
  by_cases h : ReseedingCore.slowPath s g
  · simp [ReseedingCore.generate, h, (reseed_and_generate_snd_fields M s g).1]
  · simp [ReseedingCore.generate, h]

/-! ### Claim C10 -/

/-- Claim C10: manual `reseed` never modifies `fork_counter` (success or
failure); hence if the cached fork counter is stale, it is still stale right
after a manual reseed and the next `generate` call takes the slow path and
reseeds again. -/
theorem manual_reseed_keeps_fork_counter {R Rsdr Block : Type} (M : GenCore R Rsdr Block)
    (s : ReseedingCore R Rsdr) (g : Nat) :
    ((ReseedingCore.reseed M s).2).fork_counter = s.fork_counter ∧
    (ReseedingCore.is_forked s g = true →
      ReseedingCore.is_forked (ReseedingCore.reseed M s).2 g = true ∧
      ReseedingCore.generate M (ReseedingCore.reseed M s).2 g =
        ReseedingCore.reseed_and_generate M (ReseedingCore.reseed M s).2 g) := by
  have hf := (reseed_snd_fields M s).2
  refine ⟨hf, fun h => ?_⟩
  have h2 : ReseedingCore.is_forked (ReseedingCore.reseed M s).2 g = true := by
    simpa [ReseedingCore.is_forked, hf] using h
  exact ⟨h2, by simp [ReseedingCore.generate, ReseedingCore.slowPath, h2]⟩

/-- Witness for C10 at a concrete stale instance. -/
theorem manual_reseed_keeps_fork_counter_witness :
    ((ReseedingCore.reseed M0 (ReseedingCore.new 0 8 0)).2).fork_counter = 0 ∧
    ReseedingCore.generate M0 (ReseedingCore.reseed M0 (ReseedingCore.new 0 8 0)).2 1 =
      ReseedingCore.reseed_and_generate M0 (ReseedingCore.reseed M0 (ReseedingCore.new 0 8 0)).2 1 := by
  have h := manual_reseed_keeps_fork_counter M0 (ReseedingCore.new 0 8 0) 1
  exact ⟨h.1, (h.2 (by decide)).2⟩

/-! ### Claim C6 -/

/-- Claim C6: staleness is the sign test of the wrapping difference
`fork_counter - global` reinterpreted as a signed 64-bit value; it detects the
fork whenever the global counter is ahead of the cached one by `k` increments
with `1 ≤ k` less than half the counter range (`2^63`), and such a stale
reading forces the very next `generate` call onto the slow path. -/
theorem is_forked_detects_increment {R Rsdr Block : Type} (M : GenCore R Rsdr Block)
    (s : ReseedingCore R Rsdr) (g k : Nat)
    (hf : s.fork_counter < usizeMod)
    (hg : g = (s.fork_counter + k) % usizeMod)
    (hk1 : 1 ≤ k) (hk2 : k < usizeMod / 2) :
    ReseedingCore.is_forked s g = true ∧
    ReseedingCore.generate M s g = ReseedingCore.reseed_and_generate M s g := by
  have h1 : ReseedingCore.is_forked s g = true := by
    simp only [ReseedingCore.is_forked, hg, decide_eq_true_eq, usizeMod] at *
    omega
  exact ⟨h1, by simp [ReseedingCore.generate, ReseedingCore.slowPath, h1]⟩

/-- Witness for C6: one fork-counter increment is detected. -/
theorem is_forked_detects_increment_witness :
    ReseedingCore.is_forked (ReseedingCore.new (0 : Nat) 8 (0 : Nat)) 1 = true ∧
    ReseedingCore.generate M0 (ReseedingCore.new 0 8 0) 1 =
      ReseedingCore.reseed_and_generate M0 (ReseedingCore.new 0 8 0) 1 :=
  is_forked_detects_increment M0 (ReseedingCore.new 0 8 0) 1 1
    (by decide) (by decide) (by decide) (by decide)

/-! ### Claim C1 -/

/-- Run invariant for a no-fork run from a fresh instance with threshold
`B`, `0 < B ≤ i64::MAX`: the stored threshold is `B`, the countdown always
equals `B` minus the bytes produced since the last reseed, and the cached fork
counter stays 0. -/
theorem c1_run_invariant {R Rsdr Block : Type} (M : GenCore R Rsdr Block)
    (r0 : R) (rs0 : Rsdr) (B : Nat) (hB : 0 < B) (hBmax : (B : Int) ≤ i64Max) (k : Nat) :
    (genState M 0 (ReseedingCore.new r0 B rs0) k).threshold = (B : Int) ∧
    (genState M 0 (ReseedingCore.new r0 B rs0) k).bytes_until_reseed =
      (B : Int) - bytesSinceReseed M 0 (ReseedingCore.new r0 B rs0) k ∧
    (genState M 0 (ReseedingCore.new r0 B rs0) k).fork_counter = 0 := by
  induction k with
  | zero =>
      simp [genState, bytesSinceReseed, ReseedingCore.new, hB.ne', hBmax]
  | succ k ih =>
      obtain ⟨ht, hb, hfc⟩ := ih
      have hforked :
          ReseedingCore.is_forked (genState M 0 (ReseedingCore.new r0 B rs0) k) 0 = false :=
        is_forked_of_eq _ 0 hfc
      have hstep : genState M 0 (ReseedingCore.new r0 B rs0) (k + 1) =
          (ReseedingCore.generate M (genState M 0 (ReseedingCore.new r0 B rs0) k) 0).2 := rfl
      by_cases hslow : ReseedingCore.slowPath (genState M 0 (ReseedingCore.new r0 B rs0) k) 0 = true
      · have hfields := reseed_and_generate_snd_fields M (genState M 0 (ReseedingCore.new r0 B rs0) k) 0
        rw [hstep, ReseedingCore.generate, if_pos hslow, bytesSinceReseed, if_pos hslow]
        exact ⟨hfields.1.trans ht, by rw [hfields.2.1, ht], hfields.2.2⟩
      · rw [hstep, ReseedingCore.generate, if_neg hslow, bytesSinceReseed, if_neg hslow]
        exact ⟨ht, by rw [hb]; ring, hfc⟩

/-- Claim C1: `generate` takes the slow path exactly when
`bytes_until_reseed <= 0` or the cached fork counter is stale, and otherwise
subtracts the bytes about to be produced and generates from the current inner
generator; consequently, on a no-fork run from a fresh instance with threshold
`B > 0`, the slow path is taken exactly on those calls at whose start the
bytes produced since the last reseed have reached or exceeded `B`. -/
theorem generate_slow_path_exactly_at_threshold {R Rsdr Block : Type}
    (M : GenCore R Rsdr Block) (r0 : R) (rs0 : Rsdr) (B : Nat)
    (hB : 0 < B) (hBmax : (B : Int) ≤ i64Max) :
    (∀ (s : ReseedingCore R Rsdr) (g : Nat),
      ReseedingCore.generate M s g =
        if ReseedingCore.slowPath s g then ReseedingCore.reseed_and_generate M s g
        else ((M.generate s.inner).1,
              { s with inner := (M.generate s.inner).2,
                       bytes_until_reseed := s.bytes_until_reseed - (M.blockBytes : Int) })) ∧
    (∀ k : Nat,
      ReseedingCore.slowPath (genState M 0 (ReseedingCore.new r0 B rs0) k) 0 =
        decide ((B : Int) ≤ bytesSinceReseed M 0 (ReseedingCore.new r0 B rs0) k)) := by
  refine ⟨fun s g => rfl, fun k => ?_⟩
  obtain ⟨ht, hb, hfc⟩ := c1_run_invariant M r0 rs0 B hB hBmax k
  have hforked :
      ReseedingCore.is_forked (genState M 0 (ReseedingCore.new r0 B rs0) k) 0 = false :=
    is_forked_of_eq _ 0 hfc
  rw [ReseedingCore.slowPath, hforked, hb, Bool.or_false, decide_eq_decide]
  omega

/-- Witness for C1: with threshold 8 and 4-byte blocks, the third call (8
bytes already produced) is the first slow one. -/
theorem generate_slow_path_exactly_at_threshold_witness :
    0 < 8 ∧ ((8 : Int) ≤ i64Max) ∧
    ReseedingCore.slowPath (genState M0 0 (ReseedingCore.new 0 8 0) 2) 0 =
      decide ((8 : Int) ≤ bytesSinceReseed M0 0 (ReseedingCore.new 0 8 0) 2) :=
  ⟨by decide, by decide,
   (generate_slow_path_exactly_at_threshold M0 0 0 8 (by decide) (by decide)).2 2⟩

/-! ### Claim C5 -/

/-- Counterexample to claim C5 as stated: a freshly cloned instance does not
start with `fork_counter = 0` — `clone` copies the original's value. After one
`generate` call made while the global fork counter reads 1, the instance has
`fork_counter = 1`, and so does its fresh clone. -/
theorem clone_fork_counter_not_zero :
    (((ReseedingCore.generate M0 (ReseedingCore.new 0 8 0) 1).2).clone).fork_counter = 1 ∧
    ¬ ((((ReseedingCore.generate M0 (ReseedingCore.new 0 8 0) 1).2).clone).fork_counter = 0) := by
  decide

/-- Claim C5 (amended): `fork_counter` is monotonically non-decreasing under
every operation provided each `generate` call observes a global counter no
smaller than the cached value (true absent counter wraparound, since the
cached value is always a previously observed global value); a freshly
constructed instance starts at 0, while a freshly cloned instance starts at
the original's `fork_counter`, not necessarily 0. -/
theorem fork_counter_monotone {R Rsdr Block : Type} (M : GenCore R Rsdr Block)
    (s : ReseedingCore R Rsdr) (g : Nat) (r : R) (rs : Rsdr) (t : Nat)
    (h : s.fork_counter ≤ g) :
    s.fork_counter ≤ ((ReseedingCore.generate M s g).2).fork_counter ∧
    ((ReseedingCore.reseed M s).2).fork_counter = s.fork_counter ∧
    (s.clone).fork_counter = s.fork_counter ∧
    (ReseedingCore.new r t rs : ReseedingCore R Rsdr).fork_counter = 0 := by
  refine ⟨?_, (reseed_snd_fields M s).2, rfl, rfl⟩
  by_cases hslow : ReseedingCore.slowPath s g = true
  · rw [ReseedingCore.generate, if_pos hslow, (reseed_and_generate_snd_fields M s g).2.2]
    exact h
  · rw [ReseedingCore.generate, if_neg hslow]

/-- Witness for C5 (amended) at a concrete instance and global counter. -/
theorem fork_counter_monotone_witness :
    (ReseedingCore.new (0 : Nat) 8 (0 : Nat)).fork_counter ≤ 1 ∧
    (ReseedingCore.new (0 : Nat) 8 (0 : Nat)).fork_counter ≤
      ((ReseedingCore.generate M0 (ReseedingCore.new 0 8 0) 1).2).fork_counter :=
  ⟨by decide, (fork_counter_monotone M0 (ReseedingCore.new 0 8 0) 1 0 0 8 (by decide)).1⟩

/-! ### Claim C8 -/

/-- Run invariant for a no-fork run from a fresh instance constructed with
`threshold = 0` (stored as `i64::MAX`), while fewer than `i64::MAX` bytes have
been produced: every call so far was fast, so the wrapped inner generator has
exactly the unwrapped generator's state. -/
theorem c8_run_invariant {R Rsdr Block : Type} (M : GenCore R Rsdr Block)
    (r0 : R) (rs0 : Rsdr) (k : Nat) (hk : (k : Int) * (M.blockBytes : Int) < i64Max) :
    ∀ j, j ≤ k →
      (genState M 0 (ReseedingCore.new r0 0 rs0) j).inner = coreState M r0 j ∧
      (genState M 0 (ReseedingCore.new r0 0 rs0) j).threshold = i64Max ∧
      (genState M 0 (ReseedingCore.new r0 0 rs0) j).bytes_until_reseed =
        i64Max - (j : Int) * (M.blockBytes : Int) ∧
      (genState M 0 (ReseedingCore.new r0 0 rs0) j).fork_counter = 0 := by
  intro j
  induction j with
  | zero =>
      intro _
      simp [genState, ReseedingCore.new, coreState]
  | succ j ih =>
      intro hj
      obtain ⟨hi, ht, hb, hfc⟩ := ih (Nat.le_of_succ_le hj)
      have hjn : (j : Int) * (M.blockBytes : Int) < i64Max := by
        have h1 : (j : Int) ≤ (k : Int) := by exact_mod_cast Nat.le_of_succ_le hj
        have h2 : (j : Int) * (M.blockBytes : Int) ≤ (k : Int) * (M.blockBytes : Int) :=
          mul_le_mul_of_nonneg_right h1 (by positivity)
        omega
      have hslow : ReseedingCore.slowPath (genState M 0 (ReseedingCore.new r0 0 rs0) j) 0
          = false := by
        rw [ReseedingCore.slowPath, is_forked_of_eq _ 0 hfc, hb, Bool.or_false,
            decide_eq_false_iff_not]
        omega
      have hstep : genState M 0 (ReseedingCore.new r0 0 rs0) (j + 1) =
          (ReseedingCore.generate M (genState M 0 (ReseedingCore.new r0 0 rs0) j) 0).2 := rfl
      rw [hstep, ReseedingCore.generate, if_neg (by rw [hslow]; exact Bool.false_ne_true)]
      refine ⟨by rw [coreState, ← hi], ht, ?_, hfc⟩
      rw [hb]
      push_cast
      ring

/-- Claim C8 (amended): with `threshold = 0` and no fork events, the wrapped
output stream is identical to the unwrapped inner generator started from the
same state, for all runs during which total bytes produced stay below
`i64::MAX` — a construction-time threshold of 0 is stored as the clamp value
`i64::MAX = 2^63 - 1` rather than disabling the countdown, so agreement holds
for all practically reachable call counts but not literally forever. -/
theorem threshold_zero_matches_unwrapped {R Rsdr Block : Type} (M : GenCore R Rsdr Block)
    (r0 : R) (rs0 : Rsdr) (k : Nat) (hk : (k : Int) * (M.blockBytes : Int) < i64Max) :
    ∀ j, j < k → nthBlock M 0 (ReseedingCore.new r0 0 rs0) j = coreNthBlock M r0 j := by
  intro j hj
  obtain ⟨hi, ht, hb, hfc⟩ := c8_run_invariant M r0 rs0 k hk j (Nat.le_of_lt hj)
  have hjn : (j : Int) * (M.blockBytes : Int) < i64Max := by
    have h1 : (j : Int) ≤ (k : Int) := by exact_mod_cast Nat.le_of_lt hj
    have h2 : (j : Int) * (M.blockBytes : Int) ≤ (k : Int) * (M.blockBytes : Int) :=
      mul_le_mul_of_nonneg_right h1 (by positivity)
    omega
  have hslow : ReseedingCore.slowPath (genState M 0 (ReseedingCore.new r0 0 rs0) j) 0
      = false := by
    rw [ReseedingCore.slowPath, is_forked_of_eq _ 0 hfc, hb, Bool.or_false,
        decide_eq_false_iff_not]
    omega
  rw [nthBlock, coreNthBlock, ReseedingCore.generate,
      if_neg (by rw [hslow]; exact Bool.false_ne_true), hi]

/-- Witness for C8 (amended) at a concrete model and run length. -/
theorem threshold_zero_matches_unwrapped_witness :
    ((2 : Int) * ((M0.blockBytes : Nat) : Int) < i64Max) ∧
    nthBlock M0 0 (ReseedingCore.new 0 0 0) 1 = coreNthBlock M0 0 1 :=
  ⟨by decide, threshold_zero_matches_unwrapped M0 0 0 2 (by decide) 1 (by decide)⟩

/-- Counterexample to claim C8 as stated: a threshold of 0 is stored as
`i64::MAX`, not as "never reseed", so the stream is not identical to the
unwrapped generator for arbitrarily many calls. With blocks of `2^62` bytes
the first two calls produce `2^63` bytes, the countdown
(`2^63 - 1 - 2^63 = -1`) is exhausted, and the third call reseeds: the
wrapped stream's third block comes from the reseeded generator (100) while
the unwrapped generator's third block is 2. -/
theorem threshold_zero_not_identical_forever :
    ¬ (∀ j : Nat, nthBlock Mbig 0 (ReseedingCore.new 0 0 0) j = coreNthBlock Mbig 0 j) :=
  fun h => absurd (h 2) (by decide)

/-! ### Claim C9 -/

/-- The block the slow path produces when the reseed source derives `r`
(regardless of how the reseed source state advances). -/
theorem reseed_and_generate_fst_ok {R Rsdr Block : Type} (M : GenCore R Rsdr Block)
    (s : ReseedingCore R Rsdr) (g : Nat) (r : R)
    (h : (M.from_rng s.reseeder).1 = Except.ok r) :
    (ReseedingCore.reseed_and_generate M s g).1 = (M.generate r).1 := by
  rcases hfr : M.from_rng s.reseeder with ⟨res, rsdr⟩
  rw [hfr] at h
  simp only at h
  subst h
  simp [ReseedingCore.reseed_and_generate, ReseedingCore.reseed, hfr]

/-- Run invariant for a no-fork run from a fresh instance whose threshold is
exactly one block (`0 < blockBytes ≤ i64::MAX`): after every call the
countdown sits at 0, so every call after the first takes the slow path. -/
theorem c9_run_invariant {R Rsdr Block : Type} (M : GenCore R Rsdr Block)
    (s0r : R) (rs0 : Rsdr) (hn : 0 < M.blockBytes)
    (hnmax : (M.blockBytes : Int) ≤ i64Max) (k : Nat) :
    (genState M 0 (ReseedingCore.new s0r M.blockBytes rs0) (k + 1)).threshold =
      (M.blockBytes : Int) ∧
    (genState M 0 (ReseedingCore.new s0r M.blockBytes rs0) (k + 1)).bytes_until_reseed = 0 ∧
    (genState M 0 (ReseedingCore.new s0r M.blockBytes rs0) (k + 1)).fork_counter = 0 := by
  induction k with
  | zero =>
      have ht : (ReseedingCore.new s0r M.blockBytes rs0 : ReseedingCore R Rsdr).threshold =
          (M.blockBytes : Int) := by
        simp [ReseedingCore.new, hn.ne', hnmax]
      have hb : (ReseedingCore.new s0r M.blockBytes rs0 : ReseedingCore R Rsdr).bytes_until_reseed =
          (M.blockBytes : Int) := ht
      have hfc : (ReseedingCore.new s0r M.blockBytes rs0 : ReseedingCore R Rsdr).fork_counter =
          0 := rfl
      have hslow : ReseedingCore.slowPath (ReseedingCore.new s0r M.blockBytes rs0) 0
          = false := by
        rw [ReseedingCore.slowPath, is_forked_of_eq _ 0 hfc, hb, Bool.or_false,
            decide_eq_false_iff_not]
        omega
      have hstep : genState M 0 (ReseedingCore.new s0r M.blockBytes rs0) 1 =
          (ReseedingCore.generate M (ReseedingCore.new s0r M.blockBytes rs0) 0).2 := rfl
      rw [hstep, ReseedingCore.generate, if_neg (by rw [hslow]; exact Bool.false_ne_true)]
      exact ⟨ht, by rw [hb]; ring, hfc⟩
  | succ k ih =>
      obtain ⟨ht, hb, hfc⟩ := ih
      have hslow : ReseedingCore.slowPath
          (genState M 0 (ReseedingCore.new s0r M.blockBytes rs0) (k + 1)) 0 = true := by
        rw [ReseedingCore.slowPath, hb]
        simp
      have hstep : genState M 0 (ReseedingCore.new s0r M.blockBytes rs0) (k + 2) =
          (ReseedingCore.generate M
            (genState M 0 (ReseedingCore.new s0r M.blockBytes rs0) (k + 1)) 0).2 := rfl
      have hfields := reseed_and_generate_snd_fields M
        (genState M 0 (ReseedingCore.new s0r M.blockBytes rs0) (k + 1)) 0
      rw [hstep, ReseedingCore.generate, if_pos hslow]
      exact ⟨hfields.1.trans ht, by rw [hfields.2.1, ht]; ring, hfields.2.2⟩

/-- Claim C9 (amended): with the threshold set to exactly one block's byte
size and a reseed source that always derives the same generator state, every
generated block after the second is bit-for-bit identical to its predecessor
(all blocks from the second onward equal the block of the reseeded
generator); the first block, produced by the still-fast first call from the
caller-supplied initial generator, may differ from the second. -/
theorem reseed_every_block_fixed_point {R Rsdr Block : Type} (M : GenCore R Rsdr Block)
    (seedR : R) (s0r : R) (rs0 : Rsdr)
    (hconst : ∀ rsdr, (M.from_rng rsdr).1 = Except.ok seedR)
    (hn : 0 < M.blockBytes) (hnmax : (M.blockBytes : Int) ≤ i64Max) (k : Nat) :
    nthBlock M 0 (ReseedingCore.new s0r M.blockBytes rs0) (k + 2) =
      nthBlock M 0 (ReseedingCore.new s0r M.blockBytes rs0) (k + 1) := by
  have hblock : ∀ j : Nat,
      nthBlock M 0 (ReseedingCore.new s0r M.blockBytes rs0) (j + 1) =
        (M.generate seedR).1 := by
    intro j
    obtain ⟨ht, hb, hfc⟩ := c9_run_invariant M s0r rs0 hn hnmax j
    have hslow : ReseedingCore.slowPath
        (genState M 0 (ReseedingCore.new s0r M.blockBytes rs0) (j + 1)) 0 = true := by
      rw [ReseedingCore.slowPath, hb]
      simp
    rw [nthBlock, ReseedingCore.generate, if_pos hslow]
    exact reseed_and_generate_fst_ok M _ 0 seedR (hconst _)
  rw [hblock (k + 1), hblock k]

/-- Witness for C9 (amended): with 4-byte blocks, threshold 4 and a constant
reseed source, the fourth block equals the third. -/
theorem reseed_every_block_fixed_point_witness :
    nthBlock Mconst 0 (ReseedingCore.new 0 Mconst.blockBytes 0) 3 =
      nthBlock Mconst 0 (ReseedingCore.new 0 Mconst.blockBytes 0) 2 :=
  reseed_every_block_fixed_point Mconst 100 0 0 (fun _ => rfl) (by decide) (by decide) 1

/-- Counterexample to claim C9 as stated: the first `generate` call still has
a full countdown and is fast, so the second block is the first one produced
by the reseeded generator and need not match the first block, which came from
the caller-supplied initial generator. Here threshold = blockBytes = 4, the
reseed source always derives state 100, the initial generator has state 0:
the first block is 0, the second is 100. -/
theorem reseed_every_block_second_differs :
    ¬ (nthBlock Mconst 0 (ReseedingCore.new 0 Mconst.blockBytes 0) 1 =
       nthBlock Mconst 0 (ReseedingCore.new 0 Mconst.blockBytes 0) 0) := by
  decide
